import Mathlib

/-!
Verification of the STUN NAT-type detector (`main.go`).

The Go source is shallowly embedded:
* byte buffers are `List Nat` (each entry a byte value `< 256` where it matters);
* `binary.BigEndian.Uint16/Uint32` become `be16At`/`be32At`;
* the codec (`parseStunResponse`, the message construction inside
  `makeStunRequest`) becomes pure functions on byte lists;
* the receive loop of `makeStunRequest` becomes a recursion over the list of
  incoming datagrams, and `detectNATType` becomes a pure function of a
  network environment that records, for each probe the classifier performs,
  the datagrams that arrive during that probe.
-/

namespace NatInfo

/-- STUN constants from `main.go`. -/
def MagicCookie : Nat := 0x2112A442

def BindingRequest : Nat := 0x0001

def BindingResponse : Nat := 0x0101

def HeaderLength : Nat := 20

def AttrMappedAddress : Nat := 0x0001

def AttrChangeRequest : Nat := 0x0003

def AttrXorMappedAddress : Nat := 0x0020

def FamilyIPv4 : Nat := 0x01

/-- Structure `StunResult` from `main.go`: the parsed IP (as the string Go produces via
`net.IP.String()`) and port. -/
structure StunResult where
  IP : String
  Port : Nat
  deriving Repr, DecidableEq

/-- Structure `NatResult` from `main.go` (Go field names `Type`, `Reason`, `Public`;
`Type` is a Lean keyword, hence lowercase field names). `Public = none`
models the nil pointer. -/
structure NatResult where
  type : String
  reason : String
  public : Option StunResult
  deriving Repr, DecidableEq

/-- Structure `Attribute` from `main.go`: a 16-bit type and a raw value. -/
structure Attribute where
  type : Nat
  value : List Nat
  deriving Repr, DecidableEq

/-- Read one byte of a buffer; Go never reads out of bounds (every access in
`parseStunResponse` is guarded), the default 0 is only a totalization. -/
def byteAt (l : List Nat) (i : Nat) : Nat := l.getD i 0

/-- Go's `binary.BigEndian.Uint16(buffer[i:i+2])`. -/
def be16At (l : List Nat) (i : Nat) : Nat := 256 * byteAt l i + byteAt l (i + 1)

/-- Go's `binary.BigEndian.Uint32(buffer[i:i+4])`. -/
def be32At (l : List Nat) (i : Nat) : Nat :=
  16777216 * byteAt l i + 65536 * byteAt l (i + 1) + 256 * byteAt l (i + 2) + byteAt l (i + 3)

/-- Go's `(n + 3) & ^3` for a non-negative `int`: round up to a multiple
of 4. -/
def pad4 (n : Nat) : Nat := (n + 3) / 4 * 4

/-- Go's `net.IP.String()` restricted to 4-byte slices: dotted decimal. The model
only ever applies it to lists of length 4 (the Go code always builds a 4-byte
`ipBytes`). -/
def ip4ToString (bs : List Nat) : String :=
  String.intercalate "." (bs.map Nat.repr)

/-- The per-attribute body of the scan loop of `parseStunResponse`
(lines 111-147 of `main.go`): the XOR-MAPPED-ADDRESS check followed by the
MAPPED-ADDRESS check. `attrType` and `attrLen` are the decoded sub-header
fields, `attrVal` the value slice. Returns the address if this attribute
yields one (the Go code then returns), `none` if the scan moves on. -/
def tryParseAddress (isRFC5389 : Bool) (attrType : Nat) (attrVal : List Nat)
    (attrLen : Nat) : Option StunResult :=
  if attrType = AttrXorMappedAddress ∧ 8 ≤ attrLen ∧ byteAt attrVal 1 = FamilyIPv4 then
    let port := be16At attrVal 2
    if isRFC5389 then
      some ⟨ip4ToString [byteAt attrVal 4 ^^^ 0x21, byteAt attrVal 5 ^^^ 0x12,
                         byteAt attrVal 6 ^^^ 0xA4, byteAt attrVal 7 ^^^ 0x42],
            port ^^^ 0x2112⟩
    else
      some ⟨ip4ToString [byteAt attrVal 4, byteAt attrVal 5, byteAt attrVal 6, byteAt attrVal 7],
            port⟩
  else if attrType = AttrMappedAddress ∧ 8 ≤ attrLen ∧ byteAt attrVal 1 = FamilyIPv4 then
    some ⟨ip4ToString [byteAt attrVal 4, byteAt attrVal 5, byteAt attrVal 6, byteAt attrVal 7],
          be16At attrVal 2⟩
  else
    none

/-- The attribute scan loop of `parseStunResponse` (lines 100-152 of
`main.go`). The Go loop advances `offset` by at least 4 per iteration and
runs while `offset + 4 <= len(buffer)`, so it iterates fewer than
`len(buffer)` times; `fuel` bounds the iteration count and is only a
structural-recursion device — `parseStunResponse` supplies `buffer.length`,
which is always sufficient, so the fuel never runs out before the loop's own
exit condition. Note the Go `limit` is the full buffer length, not the
declared message length. -/
def scanAttrs (buffer : List Nat) (isRFC5389 : Bool) : Nat → Nat → Except String StunResult
  | 0, _ => .error "no mapped address found"
  | fuel + 1, offset =>
    if offset + 4 ≤ buffer.length then
      let attrType := be16At buffer offset
      let attrLen := be16At buffer (offset + 2)
      if buffer.length < offset + 4 + attrLen then
        -- `if offset+int(attrLen) > limit { break }`
        .error "no mapped address found"
      else
        let attrVal := (buffer.drop (offset + 4)).take attrLen
        match tryParseAddress isRFC5389 attrType attrVal attrLen with
        | some r => .ok r
        | none => scanAttrs buffer isRFC5389 fuel (offset + 4 + pad4 attrLen)
    else
      .error "no mapped address found"

/-- Function `parseStunResponse` from `main.go` (lines 77-155). The Go locals
`messageType = be16At buffer 0`, `magicCookie = be32At buffer 4`,
`isRFC5389` and `msgLen = be16At buffer 2` are inlined. The completeness
check at line 93 is `len(buffer) < int(HeaderLength+msgLen)`: `msgLen` is
`uint16` and `HeaderLength` an untyped constant, so the sum is computed in
uint16 arithmetic and wraps modulo 65536 before the `int` conversion —
hence the `% 65536` here. -/
def parseStunResponse (buffer : List Nat) : Except String StunResult :=
  if buffer.length < HeaderLength then
    .error "buffer too short"
  else if be16At buffer 0 ≠ BindingResponse then
    .error ("invalid message type: 0x" ++ (Nat.toDigits 16 (be16At buffer 0)).asString)
  else if buffer.length < (HeaderLength + be16At buffer 2) % 65536 then
    .error "buffer incomplete"
  else
    scanAttrs buffer (be32At buffer 4 == MagicCookie) buffer.length HeaderLength

/-- Quantity `totalAttrLen` as computed in `makeStunRequest` (lines 182-185 of
`main.go`), written as the same left fold. -/
def totalAttrLen (attrs : List Attribute) : Nat :=
  attrs.foldl (fun acc attr => acc + (4 + pad4 attr.value.length)) 0

/-- Big-endian bytes of a 16-bit value (`binary.BigEndian.PutUint16`). -/
def be16 (n : Nat) : List Nat := [n / 256 % 256, n % 256]

/-- Big-endian bytes of a 32-bit value (`binary.BigEndian.PutUint32`). -/
def be32 (n : Nat) : List Nat :=
  [n / 16777216 % 256, n / 65536 % 256, n / 256 % 256, n % 256]

/-- One serialized attribute, as written by the attribute loop of
`makeStunRequest` (lines 200-208 of `main.go`): type and length sub-header
(both truncated to 16 bits by `PutUint16`), the value, then the zero padding
left in the preallocated buffer up to the 4-byte boundary. -/
def encodeAttr (attr : Attribute) : List Nat :=
  be16 (attr.type % 65536) ++ be16 (attr.value.length % 65536) ++
    attr.value ++ List.replicate (pad4 attr.value.length - attr.value.length) 0

/-- The serialized attribute section of the request. -/
def encodeAttrs (attrs : List Attribute) : List Nat :=
  (attrs.map encodeAttr).flatten

/-- The STUN message construction of `makeStunRequest` (lines 181-208 of
`main.go`), generalized over the message type field (the Go code always
writes `BindingRequest` there; the spec's codec interface
`encode(messageType, attributes, variant)` takes the type as a parameter).
`tid` is the transaction id, 12 bytes in the magic-cookie variant and 16 in
the legacy variant. -/
def encodeStunMessage (msgType : Nat) (useMagicCookie : Bool) (tid : List Nat)
    (attrs : List Attribute) : List Nat :=
  be16 (msgType % 65536) ++ be16 (totalAttrLen attrs % 65536) ++
    (if useMagicCookie then be32 MagicCookie ++ tid else tid) ++
    encodeAttrs attrs

instance {α β : Type} [DecidableEq α] [DecidableEq β] : DecidableEq (Except α β) := fun a b =>
  match a, b with
  | .ok x, .ok y => if h : x = y then isTrue (by rw [h]) else isFalse (by simp [h])
  | .ok _, .error _ => isFalse (by simp)
  | .error _, .ok _ => isFalse (by simp)
  | .error x, .error y => if h : x = y then isTrue (by rw [h]) else isFalse (by simp [h])

/-- One incoming UDP datagram as seen by the receive loop of
`makeStunRequest`: its payload (`n` bytes read) and its source address
(`remoteAddr`). IP addresses are abstracted to `Nat` since the loop only
compares them for equality. -/
structure Datagram where
  data : List Nat
  srcIP : Nat
  srcPort : Nat
  deriving Repr, DecidableEq

/-- The transaction-id slice compared by `makeStunRequest` (lines 259-264 of
`main.go`): `buf[8:20]` in the magic-cookie variant, `buf[4:20]` in the
legacy variant. -/
def tidOf (useMagicCookie : Bool) (data : List Nat) : List Nat :=
  if useMagicCookie then (data.drop 8).take 12 else (data.drop 4).take 16

/-- Whether the receive loop of `makeStunRequest` (lines 254-296 of
`main.go`) accepts a datagram as the qualifying response: it must be at
least a header long, carry the sent transaction id, and — when
CHANGE-REQUEST flags were sent — satisfy the source validation; every other
datagram is skipped (`continue`). -/
def acceptDatagram (useMagicCookie : Bool) (changeRequestFlags : Nat) (tid : List Nat)
    (serverIP serverPort : Nat) (d : Datagram) : Bool :=
  if d.data.length < HeaderLength then false
  else if tidOf useMagicCookie d.data ≠ tid then false
  else if 0 < changeRequestFlags then
    if d.srcIP = serverIP ∧ d.srcPort = serverPort then false
    else if changeRequestFlags = 6 then
      -- Change IP+Port: the Go code unconditionally skips (DNS round-robin
      -- makes "different IP" untrustworthy), lines 277-282.
      false
    else if changeRequestFlags = 2 then
      -- Change Port: must be same IP, different port, lines 283-288.
      if ¬d.srcIP = serverIP ∨ d.srcPort = serverPort then false else true
    else true
  else true

/-- What `makeStunRequest` returns for the accepted datagram (lines 291-295
of `main.go`): the parsed address, or an empty `StunResult` with a nil error
when parsing fails. -/
def handleResponse (data : List Nat) : StunResult :=
  match parseStunResponse data with
  | .ok result => result
  | .error _ => ⟨"", 0⟩

/-- One call to `makeStunRequest`, abstracting the network: the random
transaction id generated for the call, the resolved server endpoint, the
sequence of datagrams that arrive before the overall deadline, and an
optional hard failure (address resolution, randomness, or socket I/O error —
lines 164-167, 176-179, 225-227 and 250-251 of `main.go`). -/
structure ProbeCall where
  tid : List Nat
  serverIP : Nat
  serverPort : Nat
  datagrams : List Datagram
  hardError : Option String
  deriving Repr, DecidableEq

/-- The receive loop of `makeStunRequest` (lines 222-297 of `main.go`): scan
the arriving datagrams in order, return on the first accepted one; if the
deadline passes with none accepted (the datagram list is exhausted), the
function returns the timeout error of line 299. Retransmissions do not
change which datagrams qualify, so they are not modelled. -/
def makeStunRequestLoop (useMagicCookie : Bool) (changeRequestFlags : Nat) (tid : List Nat)
    (serverIP serverPort : Nat) : List Datagram → Except String StunResult
  | [] => .error "STUN request timeout"
  | d :: rest =>
    if acceptDatagram useMagicCookie changeRequestFlags tid serverIP serverPort d then
      .ok (handleResponse d.data)
    else
      makeStunRequestLoop useMagicCookie changeRequestFlags tid serverIP serverPort rest

/-- Function `makeStunRequest` from `main.go` (lines 162-300) over the abstracted
network. -/
def makeStunRequest (useMagicCookie : Bool) (changeRequestFlags : Nat)
    (c : ProbeCall) : Except String StunResult :=
  match c.hardError with
  | some e => .error e
  | none =>
    makeStunRequestLoop useMagicCookie changeRequestFlags c.tid c.serverIP c.serverPort
      c.datagrams

/-- The environment of one iteration of the cone-subtype loop of
`detectNATType` (lines 379-411 of `main.go`): whether resolving the server
address succeeds, and the three probe calls (plain reachability, flag=6,
flag=2). -/
structure RfcProbeEnv where
  resolveOk : Bool
  plain : ProbeCall
  flag6 : ProbeCall
  flag2 : ProbeCall
  deriving Repr, DecidableEq

/-- The full network environment of one `detectNATType` run: local address
information, an optional socket-setup failure (lines 303-317 of `main.go`),
the four general-purpose probe calls in program order (server 1, fallback
server 2, mapping server 3, mapping fallback server 2), and the per-server
environments of the cone-subtype loop. -/
structure NetworkEnv where
  setupError : Option String
  localIP : String
  localPort : Nat
  probe1 : ProbeCall
  probe2 : ProbeCall
  probe3 : ProbeCall
  probe4 : ProbeCall
  rfcProbes : List RfcProbeEnv
  deriving Repr, DecidableEq

/-- Test 2 of `detectNATType` (lines 344-364 of `main.go`): probe server 3,
falling back to server 2; compare against the primary mapping; if both
probes fail, default to Endpoint Independent. -/
def mappingBehavior (env : NetworkEnv) (primaryResult : StunResult) : String :=
  match makeStunRequest true 0 env.probe3 with
  | .ok res2 =>
    if res2.IP = primaryResult.IP ∧ res2.Port = primaryResult.Port then "Endpoint Independent"
    else "Endpoint Dependent"
  | .error _ =>
    match makeStunRequest true 0 env.probe4 with
    | .ok res2 =>
      if res2.IP = primaryResult.IP ∧ res2.Port = primaryResult.Port then "Endpoint Independent"
      else "Endpoint Dependent"
    | .error _ => "Endpoint Independent"

/-- Phase 2 of `detectNATType` (lines 377-411 of `main.go`): iterate the
RFC 3489 servers; skip a server whose address does not resolve or that does
not answer a plain request; a qualifying flag=6 response means Full Cone, a
qualifying flag=2 response means Restricted Cone; otherwise the default
Port Restricted Cone stands. -/
def coneSubtype : List RfcProbeEnv → String
  | [] => "Port Restricted Cone NAT"
  | p :: rest =>
    if p.resolveOk then
      match makeStunRequest true 0 p.plain with
      | .error _ => coneSubtype rest
      | .ok _ =>
        match makeStunRequest true 6 p.flag6 with
        | .ok _ => "Full Cone NAT"
        | .error _ =>
          match makeStunRequest true 2 p.flag2 with
          | .ok _ => "Restricted Cone NAT"
          | .error _ => coneSubtype rest
    else coneSubtype rest

/-- Test 1 of `detectNATType` (lines 327-335 of `main.go`): probe server 1,
falling back to server 2 on any error. -/
def connectivityResult (env : NetworkEnv) : Except String StunResult :=
  match makeStunRequest true 0 env.probe1 with
  | .ok r => .ok r
  | .error _ => makeStunRequest true 0 env.probe2

/-- Function `detectNATType` from `main.go` (lines 302-423) over the abstracted
network. `.error` models the `return nil, err` paths of the socket setup;
every other path returns a verdict with a nil error. The Go code computes
`portPreserved := primaryResult.Port == localPort` before Test 2; neither
value changes in between, so it is inlined into the reason string here. -/
def detectNATType (env : NetworkEnv) : Except String NatResult :=
  match env.setupError with
  | some e => .error e
  | none =>
    match connectivityResult env with
    | .error _ => .ok ⟨"UDP Blocked", "All STUN requests failed", none⟩
    | .ok primaryResult =>
      if primaryResult.IP = env.localIP then
        .ok ⟨"Open Internet", "No NAT detected", some primaryResult⟩
      else if mappingBehavior env primaryResult = "Endpoint Dependent" then
        .ok ⟨"Symmetric NAT", "Public IP/Port varies by destination", some primaryResult⟩
      else
        .ok ⟨coneSubtype env.rfcProbes,
             if primaryResult.Port == env.localPort then
               "Endpoint Independent Mapping. Port Preserved."
             else "Endpoint Independent Mapping.",
             some primaryResult⟩

/-! ### Structured views of the codec, used to state round-trip properties -/

/-- What the scan body decides for one structured attribute whose sub-header
fields decode to its own type and value length (the case for every attribute
serialized by `encodeAttr` with a 16-bit type and value length). -/
def attrYield (isRFC5389 : Bool) (a : Attribute) : Option StunResult :=
  tryParseAddress isRFC5389 a.type a.value a.value.length

/-- The attribute scan, viewed on a structured attribute list: the first
attribute that yields an address wins; an empty rest gives the final error
of `parseStunResponse`. -/
def attrsFind (isRFC5389 : Bool) : List Attribute → Except String StunResult
  | [] => .error "no mapped address found"
  | a :: rest =>
    match attrYield isRFC5389 a with
    | some r => .ok r
    | none => attrsFind isRFC5389 rest

/-- An attribute whose sub-header survives the 16-bit truncation of
`encodeAttr` (always true in Go, where `Attribute.Type` is `uint16` and a
datagram payload is far below 65536 bytes). -/
def attrWF (a : Attribute) : Prop := a.type < 65536 ∧ a.value.length < 65536

instance (a : Attribute) : Decidable (attrWF a) := by unfold attrWF; infer_instance

/-- A well-formed IPv4 MAPPED-ADDRESS attribute for address
`i1.i2.i3.i4:port`: reserved byte, family 0x01, big-endian port, the four
address bytes. -/
def mappedAddressAttr (i1 i2 i3 i4 port : Nat) : Attribute :=
  ⟨AttrMappedAddress, [0, FamilyIPv4] ++ be16 port ++ [i1, i2, i3, i4]⟩

/-- A well-formed IPv4 XOR-MAPPED-ADDRESS attribute for address
`i1.i2.i3.i4:port` in the magic-cookie variant: the port is masked with the
cookie's high 16 bits and the address bytes with the cookie's four bytes,
exactly what a compliant server puts on the wire. -/
def xorMappedAddressAttr (i1 i2 i3 i4 port : Nat) : Attribute :=
  ⟨AttrXorMappedAddress,
    [0, FamilyIPv4] ++ be16 (port ^^^ 0x2112) ++
      [i1 ^^^ 0x21, i2 ^^^ 0x12, i3 ^^^ 0xA4, i4 ^^^ 0x42]⟩

/-! ### Concrete inputs used by witnesses and counterexamples -/

/-- A legacy-variant Binding Response header: type 0x0101, declared message
length 0, no magic cookie, zero transaction id. -/
def hdrLegacy : List Nat := [0x01, 0x01, 0, 0] ++ List.replicate 16 0

/-- A magic-cookie Binding Response header declaring `msgLen` bytes of
attributes (for `msgLen < 256`). -/
def hdrCookie (msgLen : Nat) : List Nat :=
  [0x01, 0x01, 0, msgLen, 0x21, 0x12, 0xA4, 0x42] ++ List.replicate 12 0

/-- Serialized MAPPED-ADDRESS attribute carrying 1.2.3.4:80. -/
def attrMBytes : List Nat := [0, 1, 0, 8, 0, 1, 0, 80, 1, 2, 3, 4]

/-- Serialized XOR-MAPPED-ADDRESS attribute carrying 5.6.7.8:99 masked with
the magic cookie (port 99 XOR 0x2112 = 0x2171, bytes 5,6,7,8 XOR
0x21,0x12,0xA4,0x42 = 36,20,163,74). -/
def attrXBytes : List Nat := [0, 0x20, 0, 8, 0, 1, 0x21, 0x71, 36, 20, 163, 74]

/-- Response containing a MAPPED-ADDRESS (1.2.3.4:80) before an
XOR-MAPPED-ADDRESS (5.6.7.8:99). -/
def bufBothAttrs : List Nat := hdrCookie 24 ++ attrMBytes ++ attrXBytes

/-- Response containing only the XOR-MAPPED-ADDRESS (5.6.7.8:99). -/
def bufXorOnly : List Nat := hdrCookie 12 ++ attrXBytes

/-- Legacy response declaring zero attribute bytes, exactly 20 bytes long. -/
def bufDeclaredEmpty : List Nat := hdrLegacy

/-- Buffer `bufDeclaredEmpty` with a trailing MAPPED-ADDRESS attribute beyond the
declared message length. -/
def bufTrailingAttr : List Nat := hdrLegacy ++ attrMBytes

/-- A 20-byte buffer that declares 4 attribute bytes it does not contain. -/
def bufShortDecl : List Nat := [0x01, 0x01, 0, 4] ++ List.replicate 16 0

/-- A 32-byte legacy response declaring msgLen = 0xFFEC = 65516: in uint16
arithmetic 20 + 65516 wraps to 0, so the completeness check passes even
though the buffer is far shorter than 20 + 65516, and the trailing
MAPPED-ADDRESS (1.2.3.4:80) is parsed. -/
def bufWrapDecl : List Nat := [0x01, 0x01, 0xFF, 0xEC] ++ List.replicate 16 0 ++ attrMBytes

/-- A response whose first attribute carries 1.2.3.4:80 and whose second
attribute declares length 0xFFFF with no bytes behind it. -/
def bufOverlongSecond : List Nat := hdrCookie 16 ++ attrMBytes ++ [0, 3, 255, 255]

/-- A response whose only attribute declares length 0xFFFF with no bytes
behind it. -/
def bufOverlongOnly : List Nat := hdrCookie 0 ++ [0, 3, 255, 255]

/-- An attribute whose value is 40000 bytes long. Two of them exceed the
16-bit capacity of the header's message-length field. -/
def bigAttr : Attribute := ⟨AttrChangeRequest, List.replicate 40000 0⟩

/-- A zero transaction id of the magic-cookie length. -/
def tidZ : List Nat := List.replicate 12 0

/-- A 20-byte all-zero datagram payload: long enough to be considered, but
not a Binding Response (its message type is 0). -/
def zeroData : List Nat := List.replicate 20 0

/-- A datagram from the server's own address carrying `zeroData`. -/
def zeroDatagram : Datagram := ⟨zeroData, 5, 3478⟩

/-- A probe call that receives only `zeroDatagram`. -/
def probeZ : ProbeCall := ⟨tidZ, 5, 3478, [zeroDatagram], none⟩

/-- A probe call that receives nothing (deadline passes). -/
def probeEmpty : ProbeCall := ⟨tidZ, 5, 3478, [], none⟩

/-- An environment in which no server ever answers. -/
def envSilent : NetworkEnv := ⟨none, "10.0.0.2", 4000, probeEmpty, probeEmpty, probeEmpty, probeEmpty, []⟩

/-- An environment whose connectivity probe is answered by a qualifying
datagram that carries no parseable address. -/
def envEmptyResult : NetworkEnv := ⟨none, "", 4000, probeZ, probeEmpty, probeEmpty, probeEmpty, []⟩

/-- A datagram carrying a parseable response (1.2.3.4:80) with the zero
transaction id, sent from the server's own address. -/
def addrDatagram : Datagram := ⟨bufTrailingAttr, 5, 3478⟩

/-- A probe call answered by `addrDatagram`. -/
def probeAddr : ProbeCall := ⟨tidZ, 5, 3478, [addrDatagram], none⟩

/-- Like `envEmptyResult` but with a non-empty local IP and a mapping probe
that answers with a different address, so the empty mapped address flows
into the Symmetric-NAT verdict. -/
def envEmptyResultSym : NetworkEnv := ⟨none, "10.0.0.2", 4000, probeZ, probeEmpty, probeAddr, probeEmpty, []⟩

/-- A probe call whose sent transaction id differs from the one in
`zeroDatagram`. -/
def probeMismatch : ProbeCall := ⟨[9, 9, 9], 5, 3478, [zeroDatagram], none⟩

/-- A transaction-matched datagram from the server's IP but another port. -/
def dgSameIPOtherPort : Datagram := ⟨zeroData, 5, 9999⟩

/-- A flag-2 probe call answered by `dgSameIPOtherPort`. -/
def probeFlag2 : ProbeCall := ⟨tidZ, 5, 3478, [dgSameIPOtherPort], none⟩

/-! ### Transport lemmas -/

/-- A datagram whose transaction-id slice differs from the sent id is never
accepted. -/
theorem acceptDatagram_tid_mismatch (useMagicCookie : Bool) (flags : Nat) (tid : List Nat)
    (serverIP serverPort : Nat) (d : Datagram) (h : tidOf useMagicCookie d.data ≠ tid) :
    acceptDatagram useMagicCookie flags tid serverIP serverPort d = false := by
  unfold acceptDatagram
  split
  · rfl
  · simp [h]

/-- Under CHANGE-REQUEST flag 6 no datagram is ever accepted. -/
theorem acceptDatagram_flag6 (useMagicCookie : Bool) (tid : List Nat)
    (serverIP serverPort : Nat) (d : Datagram) :
    acceptDatagram useMagicCookie 6 tid serverIP serverPort d = false := by
  unfold acceptDatagram
  split
  · rfl
  split
  · rfl
  · simp

/-- A flag-6 receive loop always runs to the deadline. -/
theorem makeStunRequestLoop_flag6 (useMagicCookie : Bool) (tid : List Nat)
    (serverIP serverPort : Nat) (ds : List Datagram) :
    makeStunRequestLoop useMagicCookie 6 tid serverIP serverPort ds =
      .error "STUN request timeout" := by
  induction ds with
  | nil => rfl
  | cons d rest ih =>
    rw [makeStunRequestLoop, acceptDatagram_flag6]
    simpa using ih

/-- A flag-6 request never succeeds. -/
theorem makeStunRequest_flag6_ne_ok (useMagicCookie : Bool) (c : ProbeCall) (r : StunResult) :
    makeStunRequest useMagicCookie 6 c ≠ .ok r := by
  unfold makeStunRequest
  cases h : c.hardError with
  | some e => simp
  | none => simp [makeStunRequestLoop_flag6]

/-- The cone-subtype loop never yields the Full Cone verdict. -/
theorem coneSubtype_ne_fullCone (l : List RfcProbeEnv) : coneSubtype l ≠ "Full Cone NAT" := by
  induction l with
  | nil => simp [coneSubtype]
  | cons p rest ih =>
    rw [coneSubtype]
    split
    · cases hp : makeStunRequest true 0 p.plain with
      | error e => simpa using ih
      | ok r =>
        simp only
        cases h6 : makeStunRequest true 6 p.flag6 with
        | ok r6 => exact absurd h6 (makeStunRequest_flag6_ne_ok true p.flag6 r6)
        | error e6 =>
          simp only
          cases h2 : makeStunRequest true 2 p.flag2 with
          | ok r2 => simp
          | error e2 => simpa using ih
    · exact ih

/-- The cone-subtype loop never yields the UDP Blocked verdict. -/
theorem coneSubtype_ne_udpBlocked (l : List RfcProbeEnv) : coneSubtype l ≠ "UDP Blocked" := by
  induction l with
  | nil => simp [coneSubtype]
  | cons p rest ih =>
    rw [coneSubtype]
    split
    · cases hp : makeStunRequest true 0 p.plain with
      | error e => simpa using ih
      | ok r =>
        simp only
        cases h6 : makeStunRequest true 6 p.flag6 with
        | ok r6 => simp
        | error e6 =>
          simp only
          cases h2 : makeStunRequest true 2 p.flag2 with
          | ok r2 => simp
          | error e2 => simpa using ih
    · exact ih

/-! ### Codec length lemmas -/

theorem pad4_ge (n : Nat) : n ≤ pad4 n := by unfold pad4; omega

theorem pad4_dvd (n : Nat) : 4 ∣ pad4 n := by unfold pad4; omega

theorem encodeAttr_length (a : Attribute) :
    (encodeAttr a).length = 4 + pad4 a.value.length := by
  have := pad4_ge a.value.length
  simp [encodeAttr, be16]
  omega

theorem totalAttrLen_foldl (attrs : List Attribute) (n : Nat) :
    attrs.foldl (fun acc attr => acc + (4 + pad4 attr.value.length)) n =
      n + attrs.foldl (fun acc attr => acc + (4 + pad4 attr.value.length)) 0 := by
  induction attrs generalizing n with
  | nil => simp
  | cons a rest ih =>
    rw [List.foldl_cons, List.foldl_cons, ih, ih (0 + (4 + pad4 a.value.length))]
    omega

theorem totalAttrLen_nil : totalAttrLen [] = 0 := rfl

theorem totalAttrLen_cons (a : Attribute) (rest : List Attribute) :
    totalAttrLen (a :: rest) = 4 + pad4 a.value.length + totalAttrLen rest := by
  unfold totalAttrLen
  rw [List.foldl_cons, totalAttrLen_foldl]
  omega

theorem encodeAttrs_cons (a : Attribute) (rest : List Attribute) :
    encodeAttrs (a :: rest) = encodeAttr a ++ encodeAttrs rest := by
  simp [encodeAttrs]

theorem encodeAttrs_length (attrs : List Attribute) :
    (encodeAttrs attrs).length = totalAttrLen attrs := by
  induction attrs with
  | nil => rfl
  | cons a rest ih =>
    rw [encodeAttrs_cons, List.length_append, encodeAttr_length, ih, totalAttrLen_cons]

theorem totalAttrLen_dvd (attrs : List Attribute) : 4 ∣ totalAttrLen attrs := by
  induction attrs with
  | nil => simp [totalAttrLen]
  | cons a rest ih =>
    rw [totalAttrLen_cons]
    have := pad4_dvd a.value.length
    omega

theorem length_le_totalAttrLen (attrs : List Attribute) :
    attrs.length ≤ totalAttrLen attrs := by
  induction attrs with
  | nil => simp [totalAttrLen]
  | cons a rest ih =>
    rw [totalAttrLen_cons, List.length_cons]
    omega

theorem encodeStunMessage_length (msgType : Nat) (useMagicCookie : Bool) (tid : List Nat)
    (attrs : List Attribute) (htid : tid.length = if useMagicCookie then 12 else 16) :
    (encodeStunMessage msgType useMagicCookie tid attrs).length =
      20 + totalAttrLen attrs := by
  cases useMagicCookie <;> simp only [if_true, if_false, Bool.false_eq_true] at htid <;>
    simp [encodeStunMessage, be16, be32, encodeAttrs_length, htid] <;> omega

theorem encodeStunMessage_cons_form (msgType : Nat) (useMagicCookie : Bool) (tid : List Nat)
    (attrs : List Attribute) :
    encodeStunMessage msgType useMagicCookie tid attrs =
      (msgType % 65536 / 256 % 256) :: (msgType % 65536 % 256) ::
      (totalAttrLen attrs % 65536 / 256 % 256) :: (totalAttrLen attrs % 65536 % 256) ::
      ((if useMagicCookie then be32 MagicCookie ++ tid else tid) ++ encodeAttrs attrs) := by
  simp [encodeStunMessage, be16]

theorem encodeStunMessage_msgLenField (msgType : Nat) (useMagicCookie : Bool)
    (tid : List Nat) (attrs : List Attribute) :
    be16At (encodeStunMessage msgType useMagicCookie tid attrs) 2 =
      totalAttrLen attrs % 65536 := by
  rw [encodeStunMessage_cons_form]
  show 256 * (totalAttrLen attrs % 65536 / 256 % 256) + totalAttrLen attrs % 65536 % 256 = _
  omega

/-! ### Claim C9 -/

/-- C9 (amended): the encoded request's total length is 20 (header) plus,
for each attribute, 4 (sub-header) plus the value length padded to the next
4-byte boundary; the total is a multiple of 4; and the header's
messageLength field holds the attributes portion modulo 2^16 — equal to the
attributes portion (total minus 20) exactly when that portion is below
65536 bytes. -/
theorem C9_encode_length_invariants (msgType : Nat) (useMagicCookie : Bool) (tid : List Nat)
    (attrs : List Attribute) (htid : tid.length = if useMagicCookie then 12 else 16) :
    (encodeStunMessage msgType useMagicCookie tid attrs).length =
      20 + (attrs.map fun a => 4 + pad4 a.value.length).sum
    ∧ 4 ∣ (encodeStunMessage msgType useMagicCookie tid attrs).length
    ∧ be16At (encodeStunMessage msgType useMagicCookie tid attrs) 2 =
        totalAttrLen attrs % 65536
    ∧ (totalAttrLen attrs < 65536 →
        be16At (encodeStunMessage msgType useMagicCookie tid attrs) 2 =
          (encodeStunMessage msgType useMagicCookie tid attrs).length - 20) := by
  have hsum : totalAttrLen attrs = (attrs.map fun a => 4 + pad4 a.value.length).sum := by
    induction attrs with
    | nil => rfl
    | cons a rest ih => rw [totalAttrLen_cons, List.map_cons, List.sum_cons, ih]
  have hlen := encodeStunMessage_length msgType useMagicCookie tid attrs htid
  have hdvd := totalAttrLen_dvd attrs
  have hfield := encodeStunMessage_msgLenField msgType useMagicCookie tid attrs
  refine ⟨by rw [hlen, hsum], by rw [hlen]; omega, hfield, fun hlt => ?_⟩
  rw [hfield, hlen, Nat.mod_eq_of_lt hlt]
  omega

/-- Witness for C9 at the concrete CHANGE-REQUEST attribute the program
sends. -/
theorem C9_encode_length_invariants_witness :
    (encodeStunMessage BindingRequest true tidZ [⟨AttrChangeRequest, [0, 0, 0, 6]⟩]).length =
      20 + ([⟨AttrChangeRequest, [0, 0, 0, 6]⟩].map fun a : Attribute =>
        4 + pad4 a.value.length).sum
    ∧ 4 ∣ (encodeStunMessage BindingRequest true tidZ
        [⟨AttrChangeRequest, [0, 0, 0, 6]⟩]).length
    ∧ be16At (encodeStunMessage BindingRequest true tidZ
        [⟨AttrChangeRequest, [0, 0, 0, 6]⟩]) 2 =
        totalAttrLen [⟨AttrChangeRequest, [0, 0, 0, 6]⟩] % 65536
    ∧ (totalAttrLen [⟨AttrChangeRequest, [0, 0, 0, 6]⟩] < 65536 →
        be16At (encodeStunMessage BindingRequest true tidZ
          [⟨AttrChangeRequest, [0, 0, 0, 6]⟩]) 2 =
          (encodeStunMessage BindingRequest true tidZ
            [⟨AttrChangeRequest, [0, 0, 0, 6]⟩]).length - 20) :=
  C9_encode_length_invariants BindingRequest true tidZ
    [⟨AttrChangeRequest, [0, 0, 0, 6]⟩] (by decide)

/-- Counterexample to C9 as stated: with two 40000-byte attributes the
attributes portion is 80008 bytes, but the 16-bit messageLength field holds
80008 mod 65536 = 14472, not the attributes portion. -/
theorem C9_counterexample :
    totalAttrLen [bigAttr, bigAttr] = 80008
    ∧ (encodeStunMessage BindingRequest true tidZ [bigAttr, bigAttr]).length = 20 + 80008
    ∧ be16At (encodeStunMessage BindingRequest true tidZ [bigAttr, bigAttr]) 2 = 14472
    ∧ (14472 : Nat) ≠ 80008 := by
  have htot : totalAttrLen [bigAttr, bigAttr] = 80008 := by
    have hb : pad4 bigAttr.value.length = 40000 := by
      show pad4 (List.replicate 40000 0).length = 40000
      rw [List.length_replicate]
      rfl
    rw [totalAttrLen_cons, totalAttrLen_cons, totalAttrLen_nil, hb]
  refine ⟨htot, ?_, ?_, by omega⟩
  · rw [encodeStunMessage_length BindingRequest true tidZ [bigAttr, bigAttr] (by decide), htot]
  · rw [encodeStunMessage_msgLenField, htot]

/-! ### Decoding an encoded message -/

theorem byteAt_append_right (l m : List Nat) (i : Nat) :
    byteAt (l ++ m) (l.length + i) = byteAt m i := by
  unfold byteAt
  rw [List.getD_append_right l m 0 (l.length + i) (by omega), Nat.add_sub_cancel_left]

/-- One iteration of the attribute scan positioned at a serialized
attribute: it yields that attribute's address or moves past it. -/
theorem scanAttrs_step (pre rest : List Nat) (a : Attribute) (isRFC5389 : Bool) (fuel : Nat)
    (ht : a.type < 65536) (hl : a.value.length < 65536) :
    scanAttrs (pre ++ (encodeAttr a ++ rest)) isRFC5389 (fuel + 1) pre.length =
      match attrYield isRFC5389 a with
      | some r => .ok r
      | none =>
          scanAttrs (pre ++ (encodeAttr a ++ rest)) isRFC5389 fuel
            (pre.length + 4 + pad4 a.value.length) := by
  have hpad := pad4_ge a.value.length
  have hea : encodeAttr a ++ rest =
      (a.type / 256 % 256) :: (a.type % 256) ::
      (a.value.length / 256 % 256) :: (a.value.length % 256) ::
      (a.value ++ (List.replicate (pad4 a.value.length - a.value.length) 0 ++ rest)) := by
    simp [encodeAttr, be16, Nat.mod_eq_of_lt ht, Nat.mod_eq_of_lt hl]
  have hBlen : (pre ++ (encodeAttr a ++ rest)).length =
      pre.length + (4 + pad4 a.value.length) + rest.length := by
    rw [List.length_append, List.length_append, encodeAttr_length]
    omega
  have h0 : byteAt (pre ++ (encodeAttr a ++ rest)) pre.length = a.type / 256 % 256 := by
    have hr := byteAt_append_right pre (encodeAttr a ++ rest) 0
    rw [Nat.add_zero] at hr
    rw [hr, hea]
    rfl
  have h1 : byteAt (pre ++ (encodeAttr a ++ rest)) (pre.length + 1) = a.type % 256 := by
    rw [byteAt_append_right, hea]
    rfl
  have h2 : byteAt (pre ++ (encodeAttr a ++ rest)) (pre.length + 2) =
      a.value.length / 256 % 256 := by
    rw [byteAt_append_right, hea]
    rfl
  have h3 : byteAt (pre ++ (encodeAttr a ++ rest)) (pre.length + 3) =
      a.value.length % 256 := by
    rw [byteAt_append_right, hea]
    rfl
  have hType : be16At (pre ++ (encodeAttr a ++ rest)) pre.length = a.type := by
    unfold be16At
    rw [h0, h1]
    omega
  have hLen : be16At (pre ++ (encodeAttr a ++ rest)) (pre.length + 2) = a.value.length := by
    unfold be16At
    rw [show pre.length + 2 + 1 = pre.length + 3 from by omega, h2, h3]
    omega
  have hval : ((pre ++ (encodeAttr a ++ rest)).drop (pre.length + 4)).take a.value.length
      = a.value := by
    have hsplit : pre ++ (encodeAttr a ++ rest) =
        (pre ++ [a.type / 256 % 256, a.type % 256,
                 a.value.length / 256 % 256, a.value.length % 256]) ++
        (a.value ++ (List.replicate (pad4 a.value.length - a.value.length) 0 ++ rest)) := by
      rw [hea]
      simp
    rw [hsplit, List.drop_left' (by simp), List.take_left' rfl]
  rw [scanAttrs]
  rw [if_pos (by rw [hBlen]; omega)]
  simp only [hType, hLen, hval]
  rw [if_neg (by rw [hBlen]; omega)]
  rfl

/-- The attribute scan over a fully serialized attribute list equals the
structured first-yield search, for any sufficient fuel and any prefix. -/
theorem scanAttrs_encodeList (attrs : List Attribute) (pre : List Nat) (isRFC5389 : Bool)
    (fuel offset : Nat) (hoff : offset = pre.length)
    (hwf : ∀ a ∈ attrs, attrWF a) (hfuel : attrs.length < fuel) :
    scanAttrs (pre ++ encodeAttrs attrs) isRFC5389 fuel offset =
      attrsFind isRFC5389 attrs := by
  subst hoff
  induction attrs generalizing pre fuel with
  | nil =>
    obtain ⟨f, rfl⟩ : ∃ f, fuel = f + 1 := ⟨fuel - 1, by omega⟩
    rw [scanAttrs, if_neg (by simp [encodeAttrs])]
    rfl
  | cons a restA ih =>
    obtain ⟨f, rfl⟩ : ∃ f, fuel = f + 1 := ⟨fuel - 1, by omega⟩
    rw [encodeAttrs_cons,
      scanAttrs_step pre (encodeAttrs restA) a isRFC5389 f
        (hwf a (List.mem_cons_self a restA)).1 (hwf a (List.mem_cons_self a restA)).2]
    cases hy : attrYield isRFC5389 a with
    | some r => simp [attrsFind, hy]
    | none =>
      simp only [attrsFind, hy]
      have hoff2 : pre.length + 4 + pad4 a.value.length = (pre ++ encodeAttr a).length := by
        rw [List.length_append, encodeAttr_length]
        omega
      rw [hoff2, ← List.append_assoc]
      exact ih (pre ++ encodeAttr a) f
        (fun b hb => hwf b (List.mem_cons_of_mem a hb))
        (by rw [List.length_cons] at hfuel; omega)

/-- Parsing an encoded Binding Response (magic-cookie variant) is exactly
the structured first-yield search over its attribute list. -/
theorem parseStunResponse_encode (tid : List Nat) (attrs : List Attribute)
    (htid : tid.length = 12) (hwf : ∀ a ∈ attrs, attrWF a) :
    parseStunResponse (encodeStunMessage BindingResponse true tid attrs) =
      attrsFind true attrs := by
  have hlen := encodeStunMessage_length BindingResponse true tid attrs (by simp [htid])
  have hfield := encodeStunMessage_msgLenField BindingResponse true tid attrs
  have hbuf : encodeStunMessage BindingResponse true tid attrs =
      (1 :: 1 :: (totalAttrLen attrs % 65536 / 256 % 256) ::
        (totalAttrLen attrs % 65536 % 256) :: 33 :: 18 :: 164 :: 66 :: tid) ++
        encodeAttrs attrs := by
    rw [encodeStunMessage_cons_form]
    simp [BindingResponse, MagicCookie, be32]
  have hb0 : be16At (encodeStunMessage BindingResponse true tid attrs) 0 = 257 := by
    rw [hbuf]
    unfold be16At
    simp only [byteAt, List.cons_append, List.getD_cons_succ, List.getD_cons_zero]
  have hb4 : be32At (encodeStunMessage BindingResponse true tid attrs) 4 = MagicCookie := by
    rw [hbuf]
    unfold be32At
    simp only [byteAt, List.cons_append, List.getD_cons_succ, List.getD_cons_zero]
    decide
  unfold parseStunResponse
  rw [if_neg (by rw [hlen]; show ¬(20 + totalAttrLen attrs < 20); omega)]
  simp only [hb0, hb4, hfield, hlen]
  rw [if_neg (by show ¬(257 ≠ BindingResponse); decide)]
  rw [if_neg (by
    show ¬(20 + totalAttrLen attrs < (20 + totalAttrLen attrs % 65536) % 65536)
    have h1 := Nat.mod_le (totalAttrLen attrs) 65536
    have h2 := Nat.mod_le (20 + totalAttrLen attrs % 65536) 65536
    omega)]
  have hcookie : (MagicCookie == MagicCookie) = true := by decide
  rw [hcookie]
  rw [hbuf]
  exact scanAttrs_encodeList attrs _ true (20 + totalAttrLen attrs) HeaderLength
    (by simp [htid, HeaderLength]) hwf
    (by have := length_le_totalAttrLen attrs; omega)

theorem attrWF_mappedAddressAttr (i1 i2 i3 i4 port : Nat) :
    attrWF (mappedAddressAttr i1 i2 i3 i4 port) :=
  ⟨(by decide : (1 : Nat) < 65536), (by decide : (8 : Nat) < 65536)⟩

theorem attrWF_xorMappedAddressAttr (i1 i2 i3 i4 port : Nat) :
    attrWF (xorMappedAddressAttr i1 i2 i3 i4 port) :=
  ⟨(by decide : (32 : Nat) < 65536), (by decide : (8 : Nat) < 65536)⟩

theorem attrYield_mappedAddressAttr (isRFC5389 : Bool) (i1 i2 i3 i4 port : Nat)
    (hport : port < 65536) :
    attrYield isRFC5389 (mappedAddressAttr i1 i2 i3 i4 port) =
      some ⟨ip4ToString [i1, i2, i3, i4], port⟩ := by
  unfold attrYield mappedAddressAttr tryParseAddress
  rw [if_neg (fun h => (by decide : ¬ ((1 : Nat) = 32)) h.1), if_pos ⟨rfl, le_refl 8, rfl⟩]
  have hp : be16At ([0, FamilyIPv4] ++ be16 port ++ [i1, i2, i3, i4]) 2 = port := by
    unfold be16At be16 FamilyIPv4
    simp only [byteAt, List.cons_append, List.nil_append,
      List.getD_cons_succ, List.getD_cons_zero]
    omega
  rw [hp]
  simp only [byteAt, be16, FamilyIPv4, List.cons_append, List.nil_append,
    List.getD_cons_succ, List.getD_cons_zero]

theorem attrYield_xorMappedAddressAttr (i1 i2 i3 i4 port : Nat) (hport : port < 65536) :
    attrYield true (xorMappedAddressAttr i1 i2 i3 i4 port) =
      some ⟨ip4ToString [i1, i2, i3, i4], port⟩ := by
  have hx : port ^^^ 0x2112 < 65536 := by
    have h := @Nat.xor_lt_two_pow port 0x2112 16 (by simpa using hport) (by norm_num)
    simpa using h
  unfold attrYield xorMappedAddressAttr tryParseAddress
  rw [if_pos ⟨rfl, le_refl 8, rfl⟩]
  have hp : be16At ([0, FamilyIPv4] ++ be16 (port ^^^ 0x2112) ++
      [i1 ^^^ 0x21, i2 ^^^ 0x12, i3 ^^^ 0xA4, i4 ^^^ 0x42]) 2 = port ^^^ 0x2112 := by
    unfold be16At be16 FamilyIPv4
    simp only [byteAt, List.cons_append, List.nil_append,
      List.getD_cons_succ, List.getD_cons_zero]
    omega
  rw [hp]
  simp only [byteAt, be16, FamilyIPv4, List.cons_append, List.nil_append,
    List.getD_cons_succ, List.getD_cons_zero, reduceIte, Nat.xor_cancel_right]

/-- The first address-yielding attribute decides the structured search. -/
theorem attrsFind_append_yield (isRFC5389 : Bool) (pre post : List Attribute)
    (a : Attribute) (r : StunResult)
    (hpre : ∀ b ∈ pre, attrYield isRFC5389 b = none)
    (hy : attrYield isRFC5389 a = some r) :
    attrsFind isRFC5389 (pre ++ a :: post) = .ok r := by
  induction pre with
  | nil => simp [attrsFind, hy]
  | cons b restb ih =>
    rw [List.cons_append]
    show attrsFind isRFC5389 (b :: (restb ++ a :: post)) = _
    rw [attrsFind, hpre b (List.mem_cons_self b restb)]
    exact ih fun x hx => hpre x (List.mem_cons_of_mem b hx)

/-! ### Claim C1 -/

/-- Counterexample to C1 as stated: `bufBothAttrs` carries a well-formed
MAPPED-ADDRESS (1.2.3.4:80) before a well-formed XOR-MAPPED-ADDRESS
(5.6.7.8:99); the decoder returns the MAPPED-ADDRESS, not the
XOR-MAPPED-ADDRESS (whose well-formedness is shown by decoding it alone). -/
theorem C1_counterexample :
    parseStunResponse bufBothAttrs = .ok ⟨"1.2.3.4", 80⟩
    ∧ parseStunResponse bufXorOnly = .ok ⟨"5.6.7.8", 99⟩
    ∧ (⟨"1.2.3.4", 80⟩ : StunResult) ≠ ⟨"5.6.7.8", 99⟩ := by
  refine ⟨by decide, by decide, by decide⟩

/-- C1 (amended): the decoder returns the address of the first well-formed
IPv4 XOR-MAPPED-ADDRESS or MAPPED-ADDRESS attribute in document order,
whichever kind comes first; XOR-MAPPED-ADDRESS wins only when it precedes
every well-formed MAPPED-ADDRESS, and an earlier MAPPED-ADDRESS wins over a
later XOR-MAPPED-ADDRESS. -/
theorem C1_first_of_either_kind_wins (tid : List Nat) (pre post : List Attribute)
    (a : Attribute) (r : StunResult)
    (htid : tid.length = 12)
    (hwf : ∀ b ∈ pre ++ a :: post, attrWF b)
    (hpre : ∀ b ∈ pre, attrYield true b = none)
    (hy : attrYield true a = some r) :
    parseStunResponse (encodeStunMessage BindingResponse true tid (pre ++ a :: post)) =
      .ok r := by
  rw [parseStunResponse_encode tid (pre ++ a :: post) htid hwf,
    attrsFind_append_yield true pre post a r hpre hy]

/-- Witness for C1 (amended): a MAPPED-ADDRESS placed after a non-address
attribute and before an XOR-MAPPED-ADDRESS carrying a different address is
the one returned. -/
theorem C1_first_of_either_kind_wins_witness :
    parseStunResponse (encodeStunMessage BindingResponse true tidZ
        [⟨AttrChangeRequest, [0, 0, 0, 2]⟩, mappedAddressAttr 1 2 3 4 80,
          xorMappedAddressAttr 5 6 7 8 99]) = .ok ⟨"1.2.3.4", 80⟩ :=
  C1_first_of_either_kind_wins tidZ [⟨AttrChangeRequest, [0, 0, 0, 2]⟩]
    [xorMappedAddressAttr 5 6 7 8 99] (mappedAddressAttr 1 2 3 4 80) ⟨"1.2.3.4", 80⟩
    (by decide) (by decide) (by decide) (by decide)

/-! ### Claim C4 -/

/-- C4: encoding (magic-cookie variant, type field set to BindingResponse)
and then decoding recovers the IP and port carried by an included
well-formed IPv4 MAPPED-ADDRESS or XOR-MAPPED-ADDRESS attribute — the
included address attribute being the first one that parses. -/
theorem C4_encode_decode_roundtrip (tid : List Nat) (pre post : List Attribute)
    (i1 i2 i3 i4 port : Nat) (htid : tid.length = 12) (hport : port < 65536)
    (hwfpre : ∀ b ∈ pre, attrWF b) (hwfpost : ∀ b ∈ post, attrWF b)
    (hpre : ∀ b ∈ pre, attrYield true b = none) :
    parseStunResponse (encodeStunMessage BindingResponse true tid
        (pre ++ mappedAddressAttr i1 i2 i3 i4 port :: post)) =
      .ok ⟨ip4ToString [i1, i2, i3, i4], port⟩
    ∧ parseStunResponse (encodeStunMessage BindingResponse true tid
        (pre ++ xorMappedAddressAttr i1 i2 i3 i4 port :: post)) =
      .ok ⟨ip4ToString [i1, i2, i3, i4], port⟩ := by
  have hall : ∀ x : Attribute, attrWF x → ∀ b ∈ pre ++ x :: post, attrWF b := by
    intro x hx b hb
    rcases List.mem_append.mp hb with hb | hb
    · exact hwfpre b hb
    · rcases List.mem_cons.mp hb with hb | hb
      · exact hb ▸ hx
      · exact hwfpost b hb
  constructor
  · rw [parseStunResponse_encode tid _ htid
        (hall _ (attrWF_mappedAddressAttr i1 i2 i3 i4 port)),
      attrsFind_append_yield true pre post _ _ hpre
        (attrYield_mappedAddressAttr true i1 i2 i3 i4 port hport)]
  · rw [parseStunResponse_encode tid _ htid
        (hall _ (attrWF_xorMappedAddressAttr i1 i2 i3 i4 port)),
      attrsFind_append_yield true pre post _ _ hpre
        (attrYield_xorMappedAddressAttr i1 i2 i3 i4 port hport)]

/-- Witness for C4 at a concrete address and attribute context. -/
theorem C4_encode_decode_roundtrip_witness :
    parseStunResponse (encodeStunMessage BindingResponse true tidZ
        ([⟨AttrChangeRequest, [0, 0, 0, 6]⟩] ++ mappedAddressAttr 9 8 7 6 3478 :: [])) =
      .ok ⟨ip4ToString [9, 8, 7, 6], 3478⟩
    ∧ parseStunResponse (encodeStunMessage BindingResponse true tidZ
        ([⟨AttrChangeRequest, [0, 0, 0, 6]⟩] ++ xorMappedAddressAttr 9 8 7 6 3478 :: [])) =
      .ok ⟨ip4ToString [9, 8, 7, 6], 3478⟩ :=
  C4_encode_decode_roundtrip tidZ [⟨AttrChangeRequest, [0, 0, 0, 6]⟩] [] 9 8 7 6 3478
    (by decide) (by decide) (by decide) (by decide) (by decide)

/-! ### Claim C3 -/

/-- Counterexample to C3 as stated: the Go scan limit is the full buffer
length, not header plus declared length. `bufTrailingAttr` extends the
exact-length `bufDeclaredEmpty` (its prefix of header plus declared length)
with a trailing MAPPED-ADDRESS; the exact-length buffer yields no address
while the extended buffer yields one, so bytes beyond the declared region do
affect the result. -/
theorem C3_counterexample :
    parseStunResponse bufTrailingAttr = .ok ⟨"1.2.3.4", 80⟩
    ∧ parseStunResponse bufDeclaredEmpty = .error "no mapped address found"
    ∧ bufTrailingAttr.take (HeaderLength + be16At bufTrailingAttr 2) = bufDeclaredEmpty := by
  refine ⟨by decide, by decide, by decide⟩

/-- C3 (amended): the decoder errors on every buffer shorter than the
16-bit-wrapped sum of 20 and the declared message length — the Go check
computes 20 + msgLen in uint16 arithmetic, so for declared lengths of 65516
and above it wraps and always passes, and such buffers decode normally
despite being far shorter than declared (second conjunct); for buffers
passing the check the attribute scan runs to the end of the buffer, so
trailing bytes beyond the declared region are scanned and can change the
result. -/
theorem C3_wrapped_incomplete_check :
    (∀ buffer : List Nat, buffer.length < (HeaderLength + be16At buffer 2) % 65536 →
        ∃ e, parseStunResponse buffer = .error e)
    ∧ parseStunResponse bufWrapDecl = .ok ⟨"1.2.3.4", 80⟩ := by
  constructor
  · intro buffer h
    unfold parseStunResponse
    split
    · exact ⟨_, rfl⟩
    · split
      · exact ⟨_, rfl⟩
      · exact ⟨_, rfl⟩
  · decide

/-- Witness for C3 (amended) at a 20-byte buffer declaring 4 attribute
bytes. -/
theorem C3_wrapped_incomplete_check_witness :
    ∃ e, parseStunResponse bufShortDecl = .error e :=
  C3_wrapped_incomplete_check.1 bufShortDecl (by decide)

/-! ### Claim C7 -/

/-- Counterexample to C7 as stated: `bufOverlongSecond` contains, at the
attribute boundary 32 reached by the scan, an attribute declaring 65535
value bytes that the buffer does not contain, yet decoding yields an
address (from the earlier MAPPED-ADDRESS) rather than no address. -/
theorem C7_counterexample :
    parseStunResponse bufOverlongSecond = .ok ⟨"1.2.3.4", 80⟩
    ∧ be16At bufOverlongSecond 34 = 65535
    ∧ bufOverlongSecond.length < 32 + 4 + be16At bufOverlongSecond 34 := by
  refine ⟨by decide, by decide, by decide⟩

/-- C7 (amended): decoding never crashes (it is a total function); a buffer
shorter than 20 bytes and a buffer whose type is not 0x0101 always yield an
error, and an attribute whose declared length exceeds the remaining buffer
terminates the scan with no address — unless an earlier attribute already
yielded one. -/
theorem C7_malformed_inputs_yield_no_address :
    (∀ buffer : List Nat, buffer.length < HeaderLength →
        parseStunResponse buffer = .error "buffer too short")
    ∧ (∀ buffer : List Nat, HeaderLength ≤ buffer.length →
        be16At buffer 0 ≠ BindingResponse → ∃ e, parseStunResponse buffer = .error e)
    ∧ ∀ (buffer : List Nat) (isRFC5389 : Bool) (fuel offset : Nat),
        offset + 4 ≤ buffer.length →
        buffer.length < offset + 4 + be16At buffer (offset + 2) →
        scanAttrs buffer isRFC5389 (fuel + 1) offset = .error "no mapped address found" := by
  refine ⟨?_, ?_, ?_⟩
  · intro buffer h
    unfold parseStunResponse
    rw [if_pos h]
  · intro buffer hge hty
    unfold parseStunResponse
    rw [if_neg (by omega), if_pos hty]
    exact ⟨_, rfl⟩
  · intro buffer isRFC5389 fuel offset h4 hover
    rw [scanAttrs, if_pos h4]
    simp only
    rw [if_pos hover]

/-- Witness for C7 (amended) at concrete malformed buffers. -/
theorem C7_malformed_inputs_yield_no_address_witness :
    parseStunResponse [0x01, 0x01, 0, 0] = .error "buffer too short"
    ∧ (∃ e, parseStunResponse zeroData = .error e)
    ∧ scanAttrs bufOverlongOnly true (bufOverlongOnly.length - 20) 20 =
        .error "no mapped address found" :=
  ⟨C7_malformed_inputs_yield_no_address.1 [0x01, 0x01, 0, 0] (by decide),
   C7_malformed_inputs_yield_no_address.2.1 zeroData (by decide) (by decide),
   C7_malformed_inputs_yield_no_address.2.2 bufOverlongOnly true 3 20 (by decide) (by decide)⟩

/-! ### Claim C2 -/

/-- C2: during a request sent with CHANGE-REQUEST flag=6 the transport
accepts no incoming datagram (every transaction-id match is discarded), so
such a request always ends in the timeout error, and consequently
`detectNATType` never returns the Full Cone verdict. -/
theorem C2_flag6_always_timeout_no_fullCone :
    (∀ (useMagicCookie : Bool) (tid : List Nat) (serverIP serverPort : Nat) (d : Datagram),
        acceptDatagram useMagicCookie 6 tid serverIP serverPort d = false)
    ∧ (∀ (useMagicCookie : Bool) (c : ProbeCall), c.hardError = none →
        makeStunRequest useMagicCookie 6 c = .error "STUN request timeout")
    ∧ ∀ (env : NetworkEnv) (r : NatResult), detectNATType env = .ok r →
        r.type ≠ "Full Cone NAT" := by
  refine ⟨acceptDatagram_flag6, ?_, ?_⟩
  · intro useMagicCookie c hc
    unfold makeStunRequest
    rw [hc]
    exact makeStunRequestLoop_flag6 useMagicCookie c.tid c.serverIP c.serverPort c.datagrams
  · intro env r h
    unfold detectNATType at h
    split at h
    · simp at h
    · split at h
      · simp only [Except.ok.injEq] at h
        subst h
        decide
      · split at h
        · simp only [Except.ok.injEq] at h
          subst h
          exact (by decide : "Open Internet" ≠ "Full Cone NAT")
        · split at h
          · simp only [Except.ok.injEq] at h
            subst h
            exact (by decide : "Symmetric NAT" ≠ "Full Cone NAT")
          · simp only [Except.ok.injEq] at h
            subst h
            exact coneSubtype_ne_fullCone env.rfcProbes

/-- Witness for C2 at concrete inputs. -/
theorem C2_flag6_always_timeout_no_fullCone_witness :
    acceptDatagram true 6 tidZ 5 3478 zeroDatagram = false
    ∧ makeStunRequest true 6 probeEmpty = .error "STUN request timeout"
    ∧ (⟨"UDP Blocked", "All STUN requests failed", none⟩ : NatResult).type ≠ "Full Cone NAT" :=
  ⟨C2_flag6_always_timeout_no_fullCone.1 true tidZ 5 3478 zeroDatagram,
   C2_flag6_always_timeout_no_fullCone.2.1 true probeEmpty rfl,
   C2_flag6_always_timeout_no_fullCone.2.2 envSilent
     ⟨"UDP Blocked", "All STUN requests failed", none⟩ (by decide)⟩

/-! ### Claim C5 -/

/-- C5: a datagram whose transaction id (bytes 8-20 in the magic-cookie
variant, 4-20 in the legacy variant) differs from the sent id never resolves
the pending request: the call behaves exactly as if that datagram had not
arrived, continuing with the remaining datagrams (and timing out if none
qualifies). -/
theorem C5_tid_mismatch_discarded (useMagicCookie : Bool) (changeRequestFlags : Nat)
    (c : ProbeCall) (d : Datagram) (rest : List Datagram)
    (hds : c.datagrams = d :: rest)
    (h : tidOf useMagicCookie d.data ≠ c.tid) :
    makeStunRequest useMagicCookie changeRequestFlags c =
      makeStunRequest useMagicCookie changeRequestFlags { c with datagrams := rest } := by
  obtain ⟨tid, serverIP, serverPort, ds, he⟩ := c
  simp only at hds h
  subst hds
  cases he with
  | some e => rfl
  | none =>
    show makeStunRequestLoop _ _ _ _ _ (d :: rest) = makeStunRequestLoop _ _ _ _ _ rest
    rw [makeStunRequestLoop, acceptDatagram_tid_mismatch _ _ _ _ _ _ h]
    simp

/-- Witness for C5: the mismatching `zeroDatagram` is discarded. -/
theorem C5_tid_mismatch_discarded_witness :
    makeStunRequest true 0 probeMismatch =
      makeStunRequest true 0 { probeMismatch with datagrams := [] } :=
  C5_tid_mismatch_discarded true 0 probeMismatch zeroDatagram [] rfl (by decide)

/-! ### Claim C6 -/

/-- C6: under CHANGE-REQUEST flag=2 a transaction-matched datagram is
accepted exactly when its source IP equals the server IP and its source port
differs from the server port; when accepted it produces the parsed response,
and otherwise (same IP and port, or different IP) it is discarded and the
call continues with the remaining datagrams. -/
theorem C6_flag2_source_validation (useMagicCookie : Bool) (c : ProbeCall)
    (d : Datagram) (rest : List Datagram)
    (hds : c.datagrams = d :: rest)
    (hn : HeaderLength ≤ d.data.length)
    (htid : tidOf useMagicCookie d.data = c.tid) :
    (acceptDatagram useMagicCookie 2 c.tid c.serverIP c.serverPort d = true ↔
      d.srcIP = c.serverIP ∧ d.srcPort ≠ c.serverPort)
    ∧ (c.hardError = none → d.srcIP = c.serverIP → d.srcPort ≠ c.serverPort →
        makeStunRequest useMagicCookie 2 c = .ok (handleResponse d.data))
    ∧ ((¬d.srcIP = c.serverIP ∨ d.srcPort = c.serverPort) →
        makeStunRequest useMagicCookie 2 c =
          makeStunRequest useMagicCookie 2 { c with datagrams := rest }) := by
  obtain ⟨tid, serverIP, serverPort, ds, he⟩ := c
  simp only at hds htid ⊢
  subst hds
  have haccept : acceptDatagram useMagicCookie 2 tid serverIP serverPort d =
      (decide (d.srcIP = serverIP) && !decide (d.srcPort = serverPort)) := by
    unfold acceptDatagram
    rw [if_neg (by omega), if_neg (by simp [htid])]
    by_cases hip : d.srcIP = serverIP <;> by_cases hp : d.srcPort = serverPort <;>
      simp [hip, hp]
  refine ⟨?_, ?_, ?_⟩
  · rw [haccept]
    by_cases hip : d.srcIP = serverIP <;> by_cases hp : d.srcPort = serverPort <;>
      simp [hip, hp]
  · intro hce hip hp
    subst hce
    show makeStunRequestLoop _ _ _ _ _ (d :: rest) = _
    rw [makeStunRequestLoop, haccept]
    simp [hip, hp]
  · intro hsrc
    cases he with
    | some e => rfl
    | none =>
      show makeStunRequestLoop _ _ _ _ _ (d :: rest) = makeStunRequestLoop _ _ _ _ _ rest
      rw [makeStunRequestLoop, haccept]
      rcases hsrc with hip | hp
      · simp [hip]
      · simp [hp]

/-- Witness for C6: a same-IP different-port match is accepted. -/
theorem C6_flag2_source_validation_witness :
    makeStunRequest true 2 probeFlag2 = .ok (handleResponse dgSameIPOtherPort.data) :=
  (C6_flag2_source_validation true probeFlag2 dgSameIPOtherPort [] rfl (by decide)
    (by decide)).2.1 rfl (by decide) (by decide)

/-! ### Claim C8 -/

/-- C8: when the connectivity probe to server 1 fails and the single retry
against server 2 also fails, `detectNATType` returns the UDP Blocked verdict
with no public address and a nil error (`.ok`, not `.error`); and this is
the only path producing the UDP Blocked verdict. -/
theorem C8_udpBlocked_iff (env : NetworkEnv) :
    (env.setupError = none →
      (makeStunRequest true 0 env.probe1).isOk = false →
      (makeStunRequest true 0 env.probe2).isOk = false →
      detectNATType env = .ok ⟨"UDP Blocked", "All STUN requests failed", none⟩)
    ∧ ∀ r : NatResult, detectNATType env = .ok r → r.type = "UDP Blocked" →
        (makeStunRequest true 0 env.probe1).isOk = false
        ∧ (makeStunRequest true 0 env.probe2).isOk = false
        ∧ r = ⟨"UDP Blocked", "All STUN requests failed", none⟩ := by
  constructor
  · intro hs h1 h2
    have hconn : ∃ e, connectivityResult env = .error e := by
      unfold connectivityResult
      cases hp1 : makeStunRequest true 0 env.probe1 with
      | ok r1 => rw [hp1] at h1; simp [Except.isOk, Except.toBool] at h1
      | error e1 =>
        show ∃ e, makeStunRequest true 0 env.probe2 = .error e
        cases hp2 : makeStunRequest true 0 env.probe2 with
        | ok r2 => rw [hp2] at h2; simp [Except.isOk, Except.toBool] at h2
        | error e2 => exact ⟨e2, rfl⟩
    obtain ⟨e, he⟩ := hconn
    unfold detectNATType
    rw [hs, he]
  · intro r h ht
    unfold detectNATType at h
    split at h
    · simp at h
    · split at h
      · rename_i e heq
        simp only [Except.ok.injEq] at h
        subst h
        have hp1 : (makeStunRequest true 0 env.probe1).isOk = false := by
          unfold connectivityResult at heq
          cases hp : makeStunRequest true 0 env.probe1 with
          | ok r1 => rw [hp] at heq; simp at heq
          | error e1 => rfl
        have hp2 : (makeStunRequest true 0 env.probe2).isOk = false := by
          unfold connectivityResult at heq
          cases hp : makeStunRequest true 0 env.probe1 with
          | ok r1 => rw [hp] at heq; simp at heq
          | error e1 =>
            rw [hp] at heq
            have heq2 : makeStunRequest true 0 env.probe2 = Except.error e := heq
            rw [heq2]
            rfl
        exact ⟨hp1, hp2, rfl⟩
      · split at h
        · simp only [Except.ok.injEq] at h
          subst h
          exact absurd ht (by decide : "Open Internet" ≠ "UDP Blocked")
        · split at h
          · simp only [Except.ok.injEq] at h
            subst h
            exact absurd ht (by decide : "Symmetric NAT" ≠ "UDP Blocked")
          · simp only [Except.ok.injEq] at h
            subst h
            exact absurd ht (coneSubtype_ne_udpBlocked env.rfcProbes)

/-- Witness for C8: in a fully silent network the verdict is UDP Blocked. -/
theorem C8_udpBlocked_iff_witness :
    detectNATType envSilent = .ok ⟨"UDP Blocked", "All STUN requests failed", none⟩ :=
  (C8_udpBlocked_iff envSilent).1 rfl (by decide) (by decide)

/-! ### Claim C10 -/

/-- C10: a qualifying (transaction-matched, source-validated) datagram whose
payload yields no parseable mapped address makes `makeStunRequest` return
`⟨"", 0⟩` with a nil error — the same type as a real address. On the
connectivity probe that empty IP is compared against the local IP for the
Open Internet check (an empty local IP would match it), and the empty
result can be carried as the Public field of the final verdict. -/
theorem C10_empty_result_propagates :
    (∀ (useMagicCookie : Bool) (changeRequestFlags : Nat) (c : ProbeCall)
        (d : Datagram) (rest : List Datagram) (e : String),
        c.hardError = none → c.datagrams = d :: rest →
        acceptDatagram useMagicCookie changeRequestFlags c.tid c.serverIP c.serverPort d = true →
        parseStunResponse d.data = .error e →
        makeStunRequest useMagicCookie changeRequestFlags c = .ok ⟨"", 0⟩)
    ∧ (∀ env : NetworkEnv, env.setupError = none →
        makeStunRequest true 0 env.probe1 = .ok ⟨"", 0⟩ →
        env.localIP = "" →
        detectNATType env = .ok ⟨"Open Internet", "No NAT detected", some ⟨"", 0⟩⟩)
    ∧ ∀ env : NetworkEnv, env.setupError = none →
        makeStunRequest true 0 env.probe1 = .ok ⟨"", 0⟩ →
        env.localIP ≠ "" →
        mappingBehavior env ⟨"", 0⟩ = "Endpoint Dependent" →
        detectNATType env = .ok ⟨"Symmetric NAT", "Public IP/Port varies by destination",
          some ⟨"", 0⟩⟩ := by
  refine ⟨?_, ?_, ?_⟩
  · intro useMagicCookie changeRequestFlags c d rest e hce hds hacc hparse
    obtain ⟨tid, serverIP, serverPort, ds, he⟩ := c
    simp only at hce hds hacc ⊢
    subst hce hds
    show makeStunRequestLoop _ _ _ _ _ (d :: rest) = _
    rw [makeStunRequestLoop, hacc]
    simp [handleResponse, hparse]
  · intro env hs hp1 hip
    have hconn : connectivityResult env = .ok ⟨"", 0⟩ := by
      unfold connectivityResult
      rw [hp1]
    unfold detectNATType
    rw [hs, hconn]
    simp only
    rw [if_pos (by rw [hip])]
  · intro env hs hp1 hip hmb
    have hconn : connectivityResult env = .ok ⟨"", 0⟩ := by
      unfold connectivityResult
      rw [hp1]
    unfold detectNATType
    rw [hs, hconn]
    simp only
    rw [if_neg (by simpa using fun hh => hip hh.symm), if_pos hmb]

/-- Witness for C10: the all-zero qualifying datagram gives the empty
result; with an empty local IP it drives the Open Internet verdict, and
with endpoint-dependent mapping it is carried as the Symmetric verdict's
public address. -/
theorem C10_empty_result_propagates_witness :
    makeStunRequest true 0 probeZ = .ok ⟨"", 0⟩
    ∧ detectNATType envEmptyResult = .ok ⟨"Open Internet", "No NAT detected", some ⟨"", 0⟩⟩
    ∧ detectNATType envEmptyResultSym = .ok ⟨"Symmetric NAT",
        "Public IP/Port varies by destination", some ⟨"", 0⟩⟩ :=
  ⟨C10_empty_result_propagates.1 true 0 probeZ zeroDatagram [] "invalid message type: 0x0"
      rfl rfl (by decide) (by decide),
   C10_empty_result_propagates.2.1 envEmptyResult rfl (by decide) rfl,
   C10_empty_result_propagates.2.2 envEmptyResultSym rfl (by decide) (by decide) (by decide)⟩

end NatInfo
